import Mathlib

/-!
Verification of the EasyApe stake-bot engine (`src/stakechat_bot/engine.py`).

The engine is embedded shallowly: every handler becomes a pure function over
explicit inputs.  Effects of the Python code are made explicit:

* the pending-confirmation dictionary `_PendingStore._store` becomes a value
  of type `Store` threaded through the handlers;
* `time.time()` becomes a rational `now` supplied in the environment;
* results of the external `BittensorClient` calls (`get_balance`,
  `get_exchange_rate`, `add_stake`) are supplied in an `Env` record;
* the append-only `trade_history.jsonl` ledger becomes a `List TradeRecord`,
  and each handler returns the ledger it leaves behind;
* whether an external stake / unstake submission was invoked is returned as
  an explicit boolean flag;
* Python floats are modelled as rationals (all money arithmetic in the
  engine is decimal-exact at the inputs considered here).
-/

namespace StakeChat

/-- Left-pads a digit string with zeros to width `d`
(used to render the fractional part of a fixed-point number). -/
def padZeros (d : Nat) (s : String) : String :=
  String.mk (List.replicate (d - s.length) '0') ++ s

/-- Fixed-point decimal rendering with `d` fractional digits, the model of a
Python format specifier such as `:.4f` / `:.6f` (rounding to nearest; the
engine only ever formats decimal-exact nonnegative values, where Python's
float formatting agrees with exact rational rounding). -/
def fmtFixed (d : Nat) (q : ℚ) : String :=
  let n : ℤ := ⌊q * (10 : ℚ) ^ d + 1 / 2⌋
  let sign := if n < 0 then "-" else ""
  let m := n.natAbs
  if d = 0 then sign ++ toString m
  else sign ++ toString (m / 10 ^ d) ++ "." ++ padZeros d (toString (m % 10 ^ d))

/-- Decides (as `hasSub pat l`) whether `pat` occurs as a contiguous
sub-sequence of `l`. -/
def hasSub (pat : List Char) : List Char → Bool
  | [] => pat.isEmpty
  | c :: t => pat.isPrefixOf (c :: t) || hasSub pat t

/-- Substring test on strings (model of Python's `in` on `str`). -/
def strContains (s pat : String) : Bool := hasSub pat.data s.data

/-- Prefix test on strings (model of Python's `str.startswith`). -/
def strStartsWith (s pre : String) : Bool := pre.data.isPrefixOf s.data

/-- Splitting on a separator character (model of `str.split(":")` /
`str.split(".")`). -/
def splitOnChar (sep : Char) : List Char → List (List Char)
  | [] => [[]]
  | c :: t =>
    match splitOnChar sep t with
    | [] => [[]]
    | h :: r => if c = sep then [] :: h :: r else (c :: h) :: r

/-- Accumulates a digit list into a natural number. -/
def parseNatCore (cs : List Char) : ℕ :=
  cs.foldl (fun n c => n * 10 + (c.toNat - 48)) 0

/-- Reads a nonempty all-digit character list, `none` otherwise. -/
def parseNatStrict (cs : List Char) : Option ℕ :=
  if !cs.isEmpty && cs.all Char.isDigit then some (parseNatCore cs) else none

/-- Model of Python's `int(...)` on the strings the engine itself produces
(an optional minus sign followed by digits); any other shape raises in
Python and is `none` here. -/
def parseInt (s : String) : Option ℤ :=
  match s.data with
  | '-' :: rest => (parseNatStrict rest).map fun n => -(n : ℤ)
  | cs => (parseNatStrict cs).map fun n => (n : ℤ)

/-- Model of Python's `float(...)` on the decimal strings the engine itself
produces (`digits` or `digits.digits`); any other shape raises in Python and
is `none` here. -/
def parseFloat (s : String) : Option ℚ :=
  match splitOnChar '.' s.data with
  | [ipart] => (parseNatStrict ipart).map fun n => (n : ℚ)
  | [ipart, fpart] =>
    match parseNatStrict ipart, parseNatStrict fpart with
    | some a, some b => some ((a : ℚ) + (b : ℚ) / 10 ^ fpart.length)
    | _, _ => none
  | _ => none

/-- Number of decimal digits needed to write `q` exactly (capped at 17),
used to model Python's `str(float)` rendering. -/
def decExponent (q : ℚ) : ℕ :=
  ((List.range 18).find? fun d => (q * (10 : ℚ) ^ d).den == 1).getD 17

/-- Model of Python's `str(...)` on a nonnegative decimal-exact float, as
interpolated by f-strings: at least one fractional digit, e.g. `10.0`,
`2.5`. -/
def pyFloatStr (q : ℚ) : String := fmtFixed (max (decExponent q) 1) q

/-- Model of f-string interpolation of an `Optional[int]` value:
`None` when absent, the decimal digits otherwise. -/
def pyOptIntStr : Option ℤ → String
  | none => "None"
  | some n => toString n

/-- Dataclass `Button` of `engine.py`. -/
structure Button where
  text : String
  action : String
  tx_id : String := "0"
  deriving DecidableEq

/-- Dataclass `BotResponse` of `engine.py`. -/
structure BotResponse where
  text : String
  buttons : Option (List (List Button)) := none
  deriving DecidableEq

/-- Dataclass `_PendingOp` of `engine.py`. -/
structure PendingOp where
  action : String
  expires_at : ℚ
  deriving DecidableEq

/-- The `_PendingStore._store` dictionary, keyed by user key. -/
def Store := String → Option PendingOp

/-- A store with no pending operations (fresh `_PendingStore()`). -/
def emptyStore : Store := fun _ => none

namespace PendingStore

/-- Model of `_PendingStore.save`: unconditionally overwrites the slot for
`user_key` with an operation expiring at `now + ttl`. -/
def save (s : Store) (user_key action : String) (ttl : ℤ) (now : ℚ) : Store :=
  fun k => if k = user_key then some { action := action, expires_at := now + (ttl : ℚ) } else s k

/-- Model of `_PendingStore.pop`: removes the slot for `user_key` (if any) and
returns the stored action only when it has not expired (`now <
expires_at`).  Returns the popped value and the store left behind. -/
def pop (s : Store) (user_key : String) (now : ℚ) : Option String × Store :=
  match s user_key with
  | none => (none, s)
  | some op =>
    (if now < op.expires_at then some op.action else none,
     fun k => if k = user_key then none else s k)

end PendingStore

/-- Balance snapshot returned by `BittensorClient.get_balance`: the free
balance, plus the current per-subnet stake valuations (external data model;
the engine itself only reads `free_tao`). -/
structure BalanceSnapshot where
  free_tao : ℚ
  stakes : List (ℤ × ℚ)
  deriving DecidableEq

/-- Record `StakeResult` returned by `BittensorClient.add_stake`, as consumed by
`Engine._stake` (fields `ok`, `message`, `tao_amount`, `alpha_amount`,
`rate`). -/
structure StakeResult where
  ok : Bool
  message : String
  tao_amount : ℚ
  alpha_amount : ℚ
  rate : ℚ
  deriving DecidableEq

/-- One line of `trade_history.jsonl`, exactly the dictionary appended by
`Engine._stake` on success. -/
structure TradeRecord where
  type : String
  netuid : ℤ
  tao_spent : ℚ
  alpha_bought : ℚ
  rate : ℚ
  deriving DecidableEq

/-- The `amount` carried by a parsed staking intent: a number, or the
literal token `all` (the parser hands either to the engine). -/
inductive Amount where
  | num (q : ℚ)
  | all
  deriving DecidableEq

/-- Intent `ParsedStake` produced by `parser.parse_message`:
an operation (`"add"` or `"remove"`), an amount, an optional subnet. -/
structure ParsedStake where
  op : String
  amount : Amount
  netuid : Option ℤ
  deriving DecidableEq

/-- The closed set of values `parser.parse_message` can return. -/
inductive Intent where
  | help
  | privacy
  | whoami
  | confirm
  | parsedStake (ps : ParsedStake)
  | unknown

/-- External inputs of one request: the fresh balance snapshot, the current
exchange rate, the result the chain client would report for a submission,
the configured default subnet, and the current time. -/
structure Env where
  bal : BalanceSnapshot
  rate : ℚ
  result : StakeResult
  defaultNetuid : Option ℤ
  now : ℚ

/-- Outcome of `Engine._stake`: the response, the ledger left behind, and
whether `BittensorClient.add_stake` was invoked. -/
structure StakeOutcome where
  response : BotResponse
  history : List TradeRecord
  addStakeInvoked : Bool
  deriving DecidableEq

/-- Outcome of a full `handle_text_async` request, with explicit effect
accounting: the store and ledger left behind, whether the intent
classifier (`parse_message`) ran, whether the pending store was read or
written, and whether an external stake / unstake submission was invoked. -/
structure HandleResult where
  response : BotResponse
  store : Store
  history : List TradeRecord
  classifierInvoked : Bool
  storeAccessed : Bool
  addStakeInvoked : Bool
  removeStakeInvoked : Bool

namespace Engine

/-- Helper of `Engine._normalize_cmd`: Python's `\w` character class
(alphanumeric or underscore). -/
def isWordChar (c : Char) : Bool := c.isAlphanum || c = '_'

/-- Model of `_TRAILING_JUNK_RE.sub("", token)`: removes the maximal trailing run of
characters that are neither word characters nor `/`. -/
def stripTrailingJunk (cs : List Char) : List Char :=
  (cs.reverse.dropWhile fun c => !(isWordChar c || c = '/')).reverse

/-- Model of `t.split()[0]`: the first whitespace-delimited token. -/
def firstToken (cs : List Char) : List Char :=
  (cs.dropWhile Char.isWhitespace).takeWhile fun c => !c.isWhitespace

/-- Model of `Engine._normalize_cmd`: trim, take the first token, strip trailing
junk, drop a leading `/`, lower-case. -/
def normalizeCmd (raw : String) : String :=
  let t := raw.trim
  if t = "" then ""
  else
    let token := stripTrailingJunk (firstToken t.data)
    let token :=
      match token with
      | '/' :: rest => rest
      | cs => cs
    String.mk (token.map Char.toLower)

/-- Model of `Engine._help`. -/
def help : BotResponse :=
  { text := "🦍 *EasyApe Commands*\n\n`balance`\n`stake <amount> <netuid>`\n`confirm`" }

/-- Model of `Engine._balance`: fetches the balance snapshot and renders the free
balance.  The `history` argument stands for the on-disk
`trade_history.jsonl` ledger that exists at the time of the request; the
source function never reads it, which this definition makes explicit by
ignoring it. -/
def balance (bal : BalanceSnapshot) (history : List TradeRecord) : BotResponse :=
  { text := "🦍 *Portfolio*\n\nFree Balance: `" ++ fmtFixed 4 bal.free_tao ++ " τ`" }

/-- Model of `Engine._stake`: re-checks the freshly fetched balance, invokes
`add_stake` (its result supplied as `result`), and on success appends one
record to the ledger.  Returns the response, the ledger left behind, and
whether `add_stake` was invoked. -/
def stake (amount : ℚ) (netuid : ℤ) (bal : BalanceSnapshot) (result : StakeResult)
    (history : List TradeRecord) : StakeOutcome :=
  if bal.free_tao < amount then
    { response :=
        { text := "❌ Not enough balance\n\nAvailable: `" ++ fmtFixed 6 bal.free_tao ++
            " τ`\nRequired: `" ++ fmtFixed 6 amount ++ " τ`" }
      history := history
      addStakeInvoked := false }
  else if result.ok = false then
    { response := { text := "❌ Stake failed\n\n`" ++ result.message ++ "`" }
      history := history
      addStakeInvoked := true }
  else
    { response :=
        { text := "✅ *Stake Confirmed*\n\nSubnet: `" ++ toString netuid ++
            "`\nSpent: `" ++ fmtFixed 4 result.tao_amount ++
            " τ`\nReceived: `" ++ fmtFixed 6 result.alpha_amount ++
            " α`\nEntry Price: `" ++ fmtFixed 6 result.rate ++
            " τ/α`\nCost Basis: `" ++ fmtFixed 4 result.tao_amount ++ " τ`" }
      history := history ++
        [{ type := "stake", netuid := netuid, tao_spent := result.tao_amount,
           alpha_bought := result.alpha_amount, rate := result.rate }]
      addStakeInvoked := true }

/-- Model of `Engine._confirm_stake`: renders the quote and saves the
`stake_confirm:{amount}:{netuid}` pending action with a 30-second TTL.
Returns the prompt and the store left behind. -/
def confirmStake (amount : ℚ) (netuid : Option ℤ) (user_key : String) (env : Env)
    (store : Store) : BotResponse × Store :=
  let est_alpha := if 0 < env.rate then amount / env.rate else 0
  let actionStr := "stake_confirm:" ++ pyFloatStr amount ++ ":" ++ pyOptIntStr netuid
  ({ text := "⚠️ *Confirm Stake*\n\nSubnet: `" ++ pyOptIntStr netuid ++
       "`\nAmount: `" ++ fmtFixed 4 amount ++
       " τ`\nAvailable: `" ++ fmtFixed 4 env.bal.free_tao ++
       " τ`\nRate: `" ++ fmtFixed 6 env.rate ++
       " τ/α`\nEst. Received: `" ++ fmtFixed 6 est_alpha ++
       " α`\n\nℹ️ Final execution price may vary slightly\ndue to subnet price impact / slippage."
     buttons := some [[{ text := "✅ Confirm", action := actionStr },
                       { text := "❌ Cancel", action := "cancel" }]] },
   PendingStore.save store user_key actionStr 30 env.now)

/-- Model of `Engine._handle_stake_action`: resolves the subnet (Python's
`action.netuid or self._default_netuid()`, where both `None` and `0` fall
back to the default), then either builds a stake-confirmation quote or
saves an unstake pending action.  `none` marks the input shape on which
the Python code would raise (an `add` intent whose amount is the token
`all` reaches `amount / rate`). -/
def handleStakeAction (action : ParsedStake) (user_key : String) (env : Env)
    (store : Store) : Option (BotResponse × Store) :=
  let netuid : Option ℤ :=
    match action.netuid with
    | some n => if n = 0 then env.defaultNetuid else some n
    | none => env.defaultNetuid
  if action.op = "add" then
    match action.amount with
    | Amount.num q => some (confirmStake q netuid user_key env store)
    | Amount.all => none
  else
    let is_all : Bool :=
      match action.amount with
      | Amount.all => true
      | Amount.num q => decide (q = 0)
    if is_all then
      some ({ text := "🚨 Confirm unstake ALL" },
        PendingStore.save store user_key ("unstake_all_confirm:" ++ pyOptIntStr netuid) 30 env.now)
    else
      match action.amount with
      | Amount.num q =>
        some ({ text := "⚠️ Confirm unstake" },
          PendingStore.save store user_key
            ("unstake_confirm:" ++ pyFloatStr q ++ ":" ++ pyOptIntStr netuid) 30 env.now)
      | Amount.all =>
        some ({ text := "⚠️ Confirm unstake" },
          PendingStore.save store user_key
            ("unstake_confirm:all:" ++ pyOptIntStr netuid) 30 env.now)

/-- Embeds a `StakeOutcome` into a full request outcome. -/
def liftOutcome (o : StakeOutcome) (store : Store) : HandleResult :=
  { response := o.response, store := store, history := o.history,
    classifierInvoked := false, storeAccessed := false,
    addStakeInvoked := o.addStakeInvoked, removeStakeInvoked := false }

/-- Model of `Engine._dispatch_action`: only `stake_confirm:` actions are
dispatched; every other popped action (including the `unstake_confirm:` and
`unstake_all_confirm:` actions the engine itself saves) falls through to
`❌ Unknown action` with no external call and no ledger write.  `none`
marks the shapes on which the Python code would raise (a `stake_confirm:`
action that does not split into exactly three fields, or whose amount /
netuid fields do not parse). -/
def dispatchAction (action : String) (env : Env) (store : Store)
    (history : List TradeRecord) : Option HandleResult :=
  if strStartsWith action "stake_confirm:" then
    match splitOnChar ':' action.data with
    | [_, amt, nid] =>
      match parseFloat (String.mk amt), parseInt (String.mk nid) with
      | some a, some n => some (liftOutcome (stake a n env.bal env.result history) store)
      | _, _ => none
    | _ => none
  else
    some { response := { text := "❌ Unknown action" }, store := store, history := history,
           classifierInvoked := false, storeAccessed := false,
           addStakeInvoked := false, removeStakeInvoked := false }

/-- Model of `Engine._handle_confirm`: pops the pending action for the user key
(the pop itself always clears the slot) and dispatches it; with no live
pending action (`None`, or the falsy empty string) it answers
`⏰ No pending action`. -/
def handleConfirm (user_key : String) (env : Env) (store : Store)
    (history : List TradeRecord) : Option HandleResult :=
  let popped := PendingStore.pop store user_key env.now
  match popped.1 with
  | none =>
    some { response := { text := "⏰ No pending action" }, store := popped.2,
           history := history, classifierInvoked := false, storeAccessed := true,
           addStakeInvoked := false, removeStakeInvoked := false }
  | some a =>
    if a = "" then
      some { response := { text := "⏰ No pending action" }, store := popped.2,
             history := history, classifierInvoked := false, storeAccessed := true,
             addStakeInvoked := false, removeStakeInvoked := false }
    else
      (dispatchAction a env popped.2 history).map fun r => { r with storeAccessed := true }

/-- Model of `Engine.handle_text_async`: normalizes the command, serves the
built-ins, and otherwise hands the text to the external intent classifier
(`parse_message`, supplied as `classify`). -/
def handleText (classify : String → Intent) (env : Env) (store : Store)
    (history : List TradeRecord) (platform user_id user_name chat_id : String)
    (is_group : Bool) (text : String) : Option HandleResult :=
  let cmd := normalizeCmd text
  if cmd = "help" ∨ cmd = "start" ∨ cmd = "?" then
    some { response := help, store := store, history := history,
           classifierInvoked := false, storeAccessed := false,
           addStakeInvoked := false, removeStakeInvoked := false }
  else if cmd = "balance" ∨ cmd = "portfolio" then
    some { response := balance env.bal history, store := store, history := history,
           classifierInvoked := false, storeAccessed := false,
           addStakeInvoked := false, removeStakeInvoked := false }
  else if cmd = "confirm" then
    handleConfirm (platform ++ ":" ++ user_id) env store history
  else
    match classify text with
    | Intent.parsedStake ps =>
      (handleStakeAction ps (platform ++ ":" ++ user_id) env store).map fun rs =>
        { response := rs.1, store := rs.2, history := history,
          classifierInvoked := true, storeAccessed := true,
          addStakeInvoked := false, removeStakeInvoked := false }
    | _ =>
      some { response := { text := "❓ Unknown command.\nType `help`" }, store := store,
             history := history, classifierInvoked := true, storeAccessed := false,
             addStakeInvoked := false, removeStakeInvoked := false }

/-- Model of `Engine._get_wallet`: the lazily cached wallet handle.  `cached` is the
current `self._wallet`; `load` is the outcome `self._load_wallet()` would
produce at this call.  Returns the request's result, the cache left behind,
and whether the loader was invoked.  Because the Python assignment
`self._wallet = self._load_wallet()` only happens when the load returns, a
raising load leaves the cache empty. -/
def getWallet {W : Type} (cached : Option W) (load : Except String W) :
    Except String W × Option W × Bool :=
  match cached with
  | some w => (Except.ok w, some w, false)
  | none =>
    match load with
    | Except.ok w => (Except.ok w, some w, true)
    | Except.error e => (Except.error e, none, true)

end Engine

/-- Modelled from the spec: the allow-list authorization gate of §4.2
step 1.  The enforcement code lives in the platform transport adapters of
the repository, not in `engine.py`; faithful to the spec's words, an
enforced allow-list that does not contain the user yields an
"unauthorized" response and performs no other side effect, and otherwise
the request proceeds into the engine's `handle_text_async`. -/
def handleAuthGated (enforced : Bool) (allowList : List String)
    (classify : String → Intent) (env : Env) (store : Store)
    (history : List TradeRecord) (platform user_id user_name chat_id : String)
    (is_group : Bool) (text : String) : Option HandleResult :=
  if enforced = true ∧ user_id ∉ allowList then
    some { response := { text := "⛔ Unauthorized" }, store := store, history := history,
           classifierInvoked := false, storeAccessed := false,
           addStakeInvoked := false, removeStakeInvoked := false }
  else
    Engine.handleText classify env store history platform user_id user_name chat_id is_group text

/-- Sample request environment used to instantiate the theorems below:
free balance 100 τ, exchange rate 0.1, a successful submission report, and
default subnet 1. -/
def sampleEnv (now : ℚ) : Env :=
  { bal := { free_tao := 100, stakes := [] }
    rate := 1 / 10
    result := { ok := true, message := "", tao_amount := 10, alpha_amount := 100, rate := 1 / 10 }
    defaultNetuid := some 1
    now := now }

/-- A store holding one pending action saved at time 0 with a 30-second
TTL for user `telegram:1`. -/
def expiredStore : Store :=
  PendingStore.save emptyStore "telegram:1" "stake_confirm:10.0:3" 30 0

/-- A classifier stub that recognizes nothing. -/
def classifyUnknown : String → Intent := fun _ => Intent.unknown

/-- C4: an action saved at time `T` with TTL `t` replaces any existing
entry for the key with expiry `T + t`; `pop` returns it at any `now` with
`T ≤ now < T + t` and returns `none` at every `now ≥ T + t`. -/
theorem claim_C4 (s : Store) (key a : String) (ttl : ℤ) (T now : ℚ) :
    PendingStore.save s key a ttl T key = some { action := a, expires_at := T + (ttl : ℚ) } ∧
    (T ≤ now → now < T + (ttl : ℚ) →
      (PendingStore.pop (PendingStore.save s key a ttl T) key now).1 = some a) ∧
    (T + (ttl : ℚ) ≤ now →
      (PendingStore.pop (PendingStore.save s key a ttl T) key now).1 = none) := by
  refine ⟨by simp [PendingStore.save], fun _ h2 => ?_, fun h => ?_⟩
  · simp [PendingStore.pop, PendingStore.save, h2]
  · simp [PendingStore.pop, PendingStore.save, not_lt.mpr h]

/-- Witness for C4 at a concrete store, key, TTL 30 and save time 0: the
action is poppable at time 10 and gone at time 30. -/
theorem claim_C4_witness :
    (PendingStore.pop (PendingStore.save emptyStore "k" "act" 30 0) "k" 10).1 = some "act" ∧
    (PendingStore.pop (PendingStore.save emptyStore "k" "act" 30 0) "k" 30).1 = none := by
  constructor
  · exact (claim_C4 emptyStore "k" "act" 30 0 10).2.1 (by norm_num) (by norm_num)
  · exact (claim_C4 emptyStore "k" "act" 30 0 30).2.2 (by norm_num)

/-- C5: `pop` always clears the slot, even when the entry has expired, so
an immediately following `pop` on the same key returns `none` and an
expired entry can never be returned later. -/
theorem claim_C5 (s : Store) (key : String) (t1 t2 : ℚ) :
    (PendingStore.pop s key t1).2 key = none ∧
    (PendingStore.pop (PendingStore.pop s key t1).2 key t2).1 = none := by
  cases h : s key with
  | none => simp [PendingStore.pop, h]
  | some op => simp [PendingStore.pop, h]

/-- C2 (code evaluation): the popped pending unstake actions that
`Engine._handle_stake_action` saves are not executed by
`Engine._dispatch_action`; they fall through to `❌ Unknown action`, the
external remove-stake operation is not invoked, and the ledger is
unchanged. -/
theorem claim_C2_code_behavior (env : Env) (store : Store) (history : List TradeRecord) :
    Engine.dispatchAction "unstake_confirm:5.0:3" env store history =
      some { response := { text := "❌ Unknown action" }, store := store, history := history,
             classifierInvoked := false, storeAccessed := false,
             addStakeInvoked := false, removeStakeInvoked := false } ∧
    Engine.dispatchAction "unstake_all_confirm:3" env store history =
      some { response := { text := "❌ Unknown action" }, store := store, history := history,
             classifierInvoked := false, storeAccessed := false,
             addStakeInvoked := false, removeStakeInvoked := false } := by
  have h1 : strStartsWith "unstake_confirm:5.0:3" "stake_confirm:" = false := by decide
  have h2 : strStartsWith "unstake_all_confirm:3" "stake_confirm:" = false := by decide
  exact ⟨by simp [Engine.dispatchAction, h1], by simp [Engine.dispatchAction, h2]⟩

/-- C10: a failed wallet load leaves the cached handle empty (so the next
request attempts the load again), a successful load fills the cache, and a
filled cache is returned as-is with the loader never invoked again. -/
theorem claim_C10 (W : Type) (e : String) (w : W) (load : Except String W) :
    Engine.getWallet (none : Option W) (Except.error e) = (Except.error e, none, true) ∧
    Engine.getWallet (none : Option W) (Except.ok w) = (Except.ok w, some w, true) ∧
    Engine.getWallet (some w) load = (Except.ok w, some w, false) :=
  ⟨rfl, rfl, rfl⟩

/-- C6: when the freshly fetched free balance is below the requested
amount, stake execution answers with the insufficient-balance response
showing available vs. required, does not invoke `add_stake`, and leaves
the ledger unchanged. -/
theorem claim_C6 (amount : ℚ) (netuid : ℤ) (bal : BalanceSnapshot) (result : StakeResult)
    (history : List TradeRecord) (h : bal.free_tao < amount) :
    Engine.stake amount netuid bal result history =
      { response :=
          { text := "❌ Not enough balance\n\nAvailable: `" ++ fmtFixed 6 bal.free_tao ++
              " τ`\nRequired: `" ++ fmtFixed 6 amount ++ " τ`" }
        history := history
        addStakeInvoked := false } := by
  simp [Engine.stake, h]

unseal Rat.add Rat.mul Rat.inv in
/-- Witness for C6: staking 10 τ with 5 τ free yields the
insufficient-balance response, no submission, and an unchanged ledger. -/
theorem claim_C6_witness :
    (5 : ℚ) < 10 ∧
    Engine.stake 10 3 { free_tao := 5, stakes := [] }
        { ok := true, message := "", tao_amount := 0, alpha_amount := 0, rate := 0 } [] =
      { response :=
          { text := "❌ Not enough balance\n\nAvailable: `5.000000 τ`\nRequired: `10.000000 τ`" }
        history := []
        addStakeInvoked := false } := by
  have h := claim_C6 10 3 { free_tao := 5, stakes := [] }
    { ok := true, message := "", tao_amount := 0, alpha_amount := 0, rate := 0 } [] (by norm_num)
  refine ⟨by norm_num, ?_⟩
  rw [h]
  decide

/-- C7: when the balance check passes and `add_stake` reports success,
exactly one record with the actual reported values is appended to the
ledger, and the response renders the subnet and the actual spent /
received / rate figures. -/
theorem claim_C7 (amount : ℚ) (netuid : ℤ) (bal : BalanceSnapshot) (result : StakeResult)
    (history : List TradeRecord) (h1 : ¬ bal.free_tao < amount) (h2 : result.ok = true) :
    (Engine.stake amount netuid bal result history).history =
      history ++
        [{ type := "stake", netuid := netuid, tao_spent := result.tao_amount,
           alpha_bought := result.alpha_amount, rate := result.rate }] ∧
    (Engine.stake amount netuid bal result history).response.text =
      "✅ *Stake Confirmed*\n\nSubnet: `" ++ toString netuid ++
        "`\nSpent: `" ++ fmtFixed 4 result.tao_amount ++
        " τ`\nReceived: `" ++ fmtFixed 6 result.alpha_amount ++
        " α`\nEntry Price: `" ++ fmtFixed 6 result.rate ++
        " τ/α`\nCost Basis: `" ++ fmtFixed 4 result.tao_amount ++ " τ`" := by
  constructor <;> simp [Engine.stake, h1, h2]

unseal Rat.add Rat.mul Rat.inv in
/-- Witness for C7: a stake of 10 τ on subnet 3 with external result
`{ok, spent 10, received 196.7, rate 0.0508}` appends exactly the record
`{stake, 3, 10, 196.7, 0.0508}` and the response text contains `3`,
`10.0000`, `196.700000` and `0.050800`. -/
theorem claim_C7_witness :
    (Engine.stake 10 3 { free_tao := 100, stakes := [] }
        { ok := true, message := "", tao_amount := 10, alpha_amount := 1967 / 10,
          rate := 508 / 10000 } []).history =
      [{ type := "stake", netuid := 3, tao_spent := 10, alpha_bought := 1967 / 10,
         rate := 508 / 10000 }] ∧
    strContains (Engine.stake 10 3 { free_tao := 100, stakes := [] }
        { ok := true, message := "", tao_amount := 10, alpha_amount := 1967 / 10,
          rate := 508 / 10000 } []).response.text "3" = true ∧
    strContains (Engine.stake 10 3 { free_tao := 100, stakes := [] }
        { ok := true, message := "", tao_amount := 10, alpha_amount := 1967 / 10,
          rate := 508 / 10000 } []).response.text "10.0000" = true ∧
    strContains (Engine.stake 10 3 { free_tao := 100, stakes := [] }
        { ok := true, message := "", tao_amount := 10, alpha_amount := 1967 / 10,
          rate := 508 / 10000 } []).response.text "196.700000" = true ∧
    strContains (Engine.stake 10 3 { free_tao := 100, stakes := [] }
        { ok := true, message := "", tao_amount := 10, alpha_amount := 1967 / 10,
          rate := 508 / 10000 } []).response.text "0.050800" = true := by
  have h := claim_C7 10 3 { free_tao := 100, stakes := [] }
    { ok := true, message := "", tao_amount := 10, alpha_amount := 1967 / 10,
      rate := 508 / 10000 } [] (by norm_num) rfl
  refine ⟨by simpa using h.1, ?_, ?_, ?_, ?_⟩ <;> rw [h.2] <;> decide

/-- C8: when the balance check passes but `add_stake` reports failure, the
error response carries the external message verbatim and the ledger is
unchanged. -/
theorem claim_C8 (amount : ℚ) (netuid : ℤ) (bal : BalanceSnapshot) (result : StakeResult)
    (history : List TradeRecord) (h1 : ¬ bal.free_tao < amount) (h2 : result.ok = false) :
    Engine.stake amount netuid bal result history =
      { response := { text := "❌ Stake failed\n\n`" ++ result.message ++ "`" }
        history := history
        addStakeInvoked := true } := by
  simp [Engine.stake, h1, h2]

/-- Witness for C8: a failed submission with message `subtensor timeout`
yields exactly that message inside the error response and no ledger
write. -/
theorem claim_C8_witness :
    Engine.stake 10 3 { free_tao := 100, stakes := [] }
        { ok := false, message := "subtensor timeout", tao_amount := 0, alpha_amount := 0,
          rate := 0 } [] =
      { response := { text := "❌ Stake failed\n\n`subtensor timeout`" }
        history := []
        addStakeInvoked := true } ∧
    strContains "❌ Stake failed\n\n`subtensor timeout`" "subtensor timeout" = true := by
  refine ⟨?_, by decide⟩
  exact claim_C8 10 3 { free_tao := 100, stakes := [] }
    { ok := false, message := "subtensor timeout", tao_amount := 0, alpha_amount := 0,
      rate := 0 } [] (by norm_num) rfl

/-- C9: a `confirm` with no live pending action (none stored, or the
stored one expired) answers `⏰ No pending action`, invokes no external
operation, and leaves the ledger unchanged. -/
theorem claim_C9 (user_key : String) (env : Env) (store : Store)
    (history : List TradeRecord)
    (h : (PendingStore.pop store user_key env.now).1 = none) :
    Engine.handleConfirm user_key env store history =
      some { response := { text := "⏰ No pending action" },
             store := (PendingStore.pop store user_key env.now).2,
             history := history, classifierInvoked := false, storeAccessed := true,
             addStakeInvoked := false, removeStakeInvoked := false } := by
  simp [Engine.handleConfirm, h]

unseal Rat.add Rat.mul Rat.inv in
/-- Witness for C9: confirming at time 100 against a pending action saved
at time 0 with a 30-second TTL (hence expired) yields the no-pending
response and no side effect beyond clearing the slot. -/
theorem claim_C9_witness :
    Engine.handleConfirm "telegram:1" (sampleEnv 100) expiredStore [] =
      some { response := { text := "⏰ No pending action" },
             store := (PendingStore.pop expiredStore "telegram:1" (sampleEnv 100).now).2,
             history := [], classifierInvoked := false, storeAccessed := true,
             addStakeInvoked := false, removeStakeInvoked := false } := by
  refine claim_C9 "telegram:1" (sampleEnv 100) expiredStore [] ?_
  show (PendingStore.pop expiredStore "telegram:1" 100).1 = none
  decide

/-- C1 (amended): the portfolio operation fetches the current balance
snapshot and returns a report containing only the free balance rendered
with 4 decimal places; it never reads the history log and derives no
cost / realized / unrealized / PnL / ROI figures, whatever the ledger
holds. -/
theorem claim_C1_amended (bal : BalanceSnapshot) (history : List TradeRecord) :
    Engine.balance bal history =
      { text := "🦍 *Portfolio*\n\nFree Balance: `" ++ fmtFixed 4 bal.free_tao ++ " τ`" } :=
  rfl

unseal Rat.add Rat.mul Rat.inv in
/-- C1 (counterexample): at the claim's own input — history
`[{type: stake, tao_spent: 100}]`, no unstake records, current stake
valuation 120 (free balance 50) — the report is only the free-balance
line; it contains neither `20.00` (the claimed ROI / unrealized figure)
nor any `realized` line. -/
theorem claim_C1_counterexample :
    (Engine.balance { free_tao := 50, stakes := [(3, 120)] }
        [{ type := "stake", netuid := 3, tao_spent := 100, alpha_bought := 1000,
           rate := 1 / 10 }]).text =
      "🦍 *Portfolio*\n\nFree Balance: `50.0000 τ`" ∧
    strContains (Engine.balance { free_tao := 50, stakes := [(3, 120)] }
        [{ type := "stake", netuid := 3, tao_spent := 100, alpha_bought := 1000,
           rate := 1 / 10 }]).text "20.00" = false ∧
    strContains (Engine.balance { free_tao := 50, stakes := [(3, 120)] }
        [{ type := "stake", netuid := 3, tao_spent := 100, alpha_bought := 1000,
           rate := 1 / 10 }]).text "realized" = false := by
  refine ⟨by decide, by decide, by decide⟩

/-- C3: under an enforced allow-list, a request from a user absent from
the list yields the unauthorized response and no other effect: the store
is returned untouched and never read, the intent classifier is not
invoked, the ledger is unchanged, and no external operation runs
(the allow-list gate is modelled from the spec, §4.2 step 1; it lives in
the platform transports, outside `engine.py`). -/
theorem claim_C3 (allowList : List String) (classify : String → Intent) (env : Env)
    (store : Store) (history : List TradeRecord)
    (platform user_id user_name chat_id : String) (is_group : Bool) (text : String)
    (h : user_id ∉ allowList) :
    handleAuthGated true allowList classify env store history platform user_id user_name
        chat_id is_group text =
      some { response := { text := "⛔ Unauthorized" }, store := store, history := history,
             classifierInvoked := false, storeAccessed := false,
             addStakeInvoked := false, removeStakeInvoked := false } := by
  simp [handleAuthGated, h]

/-- Witness for C3: user `bob` against allow-list `["alice"]` issuing a
stake command is stopped at the gate. -/
theorem claim_C3_witness :
    handleAuthGated true ["alice"] classifyUnknown (sampleEnv 0) emptyStore []
        "telegram" "bob" "Bob" "chat1" false "stake 10 3" =
      some { response := { text := "⛔ Unauthorized" }, store := emptyStore, history := [],
             classifierInvoked := false, storeAccessed := false,
             addStakeInvoked := false, removeStakeInvoked := false } :=
  claim_C3 ["alice"] classifyUnknown (sampleEnv 0) emptyStore []
    "telegram" "bob" "Bob" "chat1" false "stake 10 3" (by decide)

end StakeChat
